import Mathlib

/-!
Verification development for the xenia guest-thread execution-state subsystem:
a shallow embedding of `src/xenia/cpu/thread_state.cc` (guest thread context
construction and teardown) and of the memory-search front-end pieces of
`src/xenia/app/emulator_window.h`, with theorems about the embedded code.

Machine integers are modelled as `Nat` with explicit `% 2 ^ 32` where the
source performs 32-bit arithmetic.  The external collaborators that the code
calls but whose sources are not part of this repository snapshot (the guest
memory heap, the aligned host allocator, the memory translation helpers and
the register-file layout) are modelled from the specification's interface
descriptions, instrumented with outstanding-allocation counters so that leak
properties are expressible.
-/

namespace Xenia

/-- One allocator call made by the context code; traces record call order. -/
inductive AllocEvent where
  | heapAlloc
  | hostAlloc
  | heapFree
  | hostFree
  | memRelease
deriving DecidableEq, Repr

/-- Modelled from the spec: a guest memory instance (`xe_memory_ref`, from
`xenia/core/memory.h`, not under `src/`): it carries the host translation
base used by `xe_memory_addr`. -/
structure xe_memory_ref where
  membase : Nat
deriving DecidableEq, Repr

/-- Modelled from the spec: the shared Processor collaborator.  The code under
`src/` only calls `processor->memory()`, so only the owned guest memory
reference is modelled. -/
structure Processor where
  memory : xe_memory_ref
deriving DecidableEq, Repr

/-- Modelled from the spec: `xe_memory_addr(memory, offset)` returns the host
pointer for a guest offset: the translation base plus the offset. -/
def xe_memory_addr (m : xe_memory_ref) (offset : Nat) : Nat :=
  m.membase + offset

/-- Modelled from the spec: instrumented stub state of the Guest Memory Heap.
`fail` makes the next allocation fail, `nextAddr` is the guest address the
heap chooses for the next successful allocation, `outstanding` counts live
allocations. -/
structure HeapState where
  fail : Bool
  nextAddr : Nat
  outstanding : Nat
deriving DecidableEq, Repr

/-- Modelled from the spec: `GuestHeap.Allocate(size) -> guest_address or
Failure` (`xe_memory_heap_alloc`, not under `src/`).  Failure is the null
guest address 0; a successful allocation returns the 32-bit guest address the
heap chose and counts one more outstanding allocation.  The caller in
`thread_state.cc` never inspects the result for failure. -/
def xe_memory_heap_alloc (h : HeapState) (size : Nat) : Nat × HeapState :=
  if h.fail then (0, h)
  else (h.nextAddr % 2 ^ 32, { h with outstanding := h.outstanding + 1 })

/-- Modelled from the spec: `GuestHeap.Free(guest_address)`
(`xe_memory_heap_free`); freeing the null address 0 is a no-op, otherwise one
outstanding allocation is released. -/
def xe_memory_heap_free (h : HeapState) (addr : Nat) : HeapState :=
  if addr = 0 then h else { h with outstanding := h.outstanding - 1 }

/-- Modelled from the spec: instrumented stub state of the Host Aligned Block
Allocator. -/
structure HostState where
  fail : Bool
  nextBlock : Nat
  outstanding : Nat
deriving DecidableEq, Repr

/-- Modelled from the spec: `HostAllocator.AllocateAligned(size, alignment=16)
-> host_pointer or Failure` (`xe_malloc_aligned`, not under `src/`).  A
correct aligned allocator returns a nonzero host pointer that is a multiple
of 16 (here `16 * (nextBlock + 1)`); failure is the null pointer 0. -/
def xe_malloc_aligned (h : HostState) : Nat × HostState :=
  if h.fail then (0, h)
  else (16 * (h.nextBlock + 1), { h with outstanding := h.outstanding + 1 })

/-- Modelled from the spec: `HostAllocator.Free(host_pointer)`
(`xe_free_aligned`); freeing the null pointer is a no-op, otherwise one
outstanding block is released. -/
def xe_free_aligned (h : HostState) (ptr : Nat) : HostState :=
  if ptr = 0 then h else { h with outstanding := h.outstanding - 1 }

/-- Modelled from the spec: the Register File block `xe_ppc_state_t` (its
defining header is not under `src/`): general-purpose registers `r0..r31`,
floating-point registers `f0..f31`, vector register storage `v0..v127`,
condition register `cr`, status register `xer`, link register `lr`, count
register `ctr`, the guest-memory-base pointer `membase`, the processor
back-reference and the owning-context back-reference (`thread_state`,
modelled as a flag saying whether it points at the owning context). -/
structure xe_ppc_state_t where
  r : Fin 32 → Nat
  f : Fin 32 → Nat
  v : Fin 128 → Nat
  cr : Nat
  xer : Nat
  lr : Nat
  ctr : Nat
  membase : Nat
  processor : Option Processor
  thread_state : Bool

/-- Modelled from the spec: the result of `xe_zero_struct` on an
`xe_ppc_state_t` block — every field is zero (for the back-references, the
null pointer). -/
def xe_zero_struct : xe_ppc_state_t where
  r := fun _ => 0
  f := fun _ => 0
  v := fun _ => 0
  cr := 0
  xer := 0
  lr := 0
  ctr := 0
  membase := 0
  processor := none
  thread_state := false

/-- The Guest Thread Context, fields as assigned by `ThreadState::ThreadState`
in `src/src/xenia/cpu/thread_state.cc` (the declaring header is not under
`src/`; all scalar fields are 32-bit there).  `ppc_state_ptr` is the host
pointer returned by `xe_malloc_aligned`; `ppc_state` is the contents of the
pointed-to register-file block after construction. -/
structure ThreadState where
  stack_size : Nat
  thread_state_address : Nat
  thread_id : Nat
  memory : xe_memory_ref
  stack_address : Nat
  ppc_state_ptr : Nat
  ppc_state : xe_ppc_state_t

/-- The two instrumented allocators the context code draws from. -/
structure Allocators where
  heap : HeapState
  host : HostState
deriving DecidableEq, Repr

/-- `ThreadState::ThreadState` from `src/src/xenia/cpu/thread_state.cc`,
line by line: store the uint32 parameters, take the processor's memory,
allocate the guest stack from the heap, allocate the register-file block
16-byte aligned, zero the block, wire `membase` / `processor` /
`thread_state`, then set `r[1] = stack_address_ + stack_size` (32-bit
addition) and `r[13] = thread_state_address_`.  Returns the constructed
context, the allocator state after the call, and the allocator calls in
program order. -/
def ThreadState_create (processor : Processor) (a : Allocators)
    (stack_size thread_state_address thread_id : Nat) :
    ThreadState × Allocators × List AllocEvent :=
  let memory := processor.memory
  let heapRes := xe_memory_heap_alloc a.heap (stack_size % 2 ^ 32)
  let stack_address := heapRes.1
  let hostRes := xe_malloc_aligned a.host
  let ppc1 : xe_ppc_state_t :=
    { xe_zero_struct with
        membase := xe_memory_addr memory 0
        processor := some processor
        thread_state := true }
  let ppc2 : xe_ppc_state_t :=
    { ppc1 with r := Function.update ppc1.r 1 ((stack_address + stack_size) % 2 ^ 32) }
  let ppc3 : xe_ppc_state_t :=
    { ppc2 with r := Function.update ppc2.r 13 (thread_state_address % 2 ^ 32) }
  (⟨stack_size % 2 ^ 32, thread_state_address % 2 ^ 32, thread_id % 2 ^ 32,
    memory, stack_address, hostRes.1, ppc3⟩,
   ⟨heapRes.2, hostRes.2⟩,
   [AllocEvent.heapAlloc, AllocEvent.hostAlloc])

/-- The context returned by a `ThreadState_create` call. -/
def createTS (p : Processor) (a : Allocators) (ss tsa tid : Nat) : ThreadState :=
  (ThreadState_create p a ss tsa tid).1

/-- The allocator state after a `ThreadState_create` call. -/
def createAllocs (p : Processor) (a : Allocators) (ss tsa tid : Nat) : Allocators :=
  (ThreadState_create p a ss tsa tid).2.1

/-- The allocator calls of a `ThreadState_create` call, in program order. -/
def createTrace (p : Processor) (a : Allocators) (ss tsa tid : Nat) : List AllocEvent :=
  (ThreadState_create p a ss tsa tid).2.2

/-- `ThreadState::~ThreadState` from `src/src/xenia/cpu/thread_state.cc`:
`xe_free_aligned(ppc_state_)`, then
`xe_memory_heap_free(memory_, stack_address_, 0)`, then
`xe_memory_release(memory_)` (the release of the memory reference is recorded
as the final event; it touches no allocator counter). -/
def ThreadState_destroy (ts : ThreadState) (a : Allocators) :
    Allocators × List AllocEvent :=
  let host1 := xe_free_aligned a.host ts.ppc_state_ptr
  let heap1 := xe_memory_heap_free a.heap ts.stack_address
  (⟨heap1, host1⟩,
   [AllocEvent.hostFree, AllocEvent.heapFree, AllocEvent.memRelease])

/-- The four scalar kinds the memory-search front end instantiates
(`typeid(uint8_t)`, `typeid(uint16_t)`, `typeid(uint32_t)`, `typeid(float)`
in `emulator_window.h`). -/
inductive SearchKind where
  | u8
  | u16
  | u32
  | f32
deriving DecidableEq, Repr

/-- Lookup in the `memory_search_dialogs_` map, modelled as an association
list from type keys to `Option Nat` dialog slots (`some id` a live dialog
held by the `unique_ptr`, `none` a null `unique_ptr`).  `none` overall means
the key is absent (`find == end`). -/
def findDialog (t : SearchKind) :
    List (SearchKind × Option Nat) → Option (Option Nat)
  | [] => none
  | (k, w) :: rest => if k = t then some w else findDialog t rest

/-- `memory_search_dialogs_[key] = v`: replace the slot of `t` when the key
is present, insert it at the end otherwise (`operator[]` default-insertion
followed by `reset`). -/
def setDialog (t : SearchKind) (v : Option Nat) :
    List (SearchKind × Option Nat) → List (SearchKind × Option Nat)
  | [] => [(t, v)]
  | (k, w) :: rest => if k = t then (t, v) :: rest else (k, w) :: setDialog t v rest

/-- The part of `EmulatorWindow` state that `ToggleMemorySearch` touches,
instrumented with a fresh-id source and a count of dialog constructions. -/
structure EmulatorWindowState where
  memory_search_dialogs : List (SearchKind × Option Nat)
  nextDialogId : Nat
  dialogsCreated : Nat
deriving DecidableEq, Repr

/-- `EmulatorWindow::ToggleMemorySearch<search_t>` from
`src/src/xenia/app/emulator_window.h`: when `find(typeid(search_t))` misses,
`operator[]` inserts the key and `reset(new MemorySearchDialog...)` stores a
fresh dialog (one construction); when the key is found, `reset()` nulls the
mapped pointer and the key stays in the map. -/
def ToggleMemorySearch (t : SearchKind) (s : EmulatorWindowState) :
    EmulatorWindowState :=
  if findDialog t s.memory_search_dialogs = none then
    { memory_search_dialogs :=
        setDialog t (some s.nextDialogId) s.memory_search_dialogs
      nextDialogId := s.nextDialogId + 1
      dialogsCreated := s.dialogsCreated + 1 }
  else
    { s with memory_search_dialogs := setDialog t none s.memory_search_dialogs }

/-- `n` successive `ToggleMemorySearch` calls for the same kind, first call
first. -/
def toggleN (t : SearchKind) : Nat → EmulatorWindowState → EmulatorWindowState
  | 0, s => s
  | n + 1, s => toggleN t n (ToggleMemorySearch t s)

/-- An `EmulatorWindow` state with no memory-search dialog ever opened. -/
def ewEmpty : EmulatorWindowState := ⟨[], 0, 0⟩

/-- `BASE_ADDRESS` from `emulator_window.h`. -/
def BASE_ADDRESS : Nat := 0x82450000

/-- `BYTES_PER_CHUNK` from `emulator_window.h`. -/
def BYTES_PER_CHUNK : Nat := 65536

/-- The float-branch "new search" scan of `MemorySearchDialog::OnDraw`:
iterate `i` over the scanned window in steps of `sizeof(float) = 4` (here
`i = 4 * k`) and keep `BASE_ADDRESS + i` when the loaded value satisfies
`value >= min_val && value < max_val`.  `mem` gives the loaded-and-swapped
float at each guest address; float values are modelled as rationals (the
total order the comparisons use on the values at hand). -/
def newSearchFloat (mem : Nat → ℚ) (min_val max_val : ℚ) : List Nat :=
  (List.range (BYTES_PER_CHUNK * 15 / 4)).filterMap fun k =>
    if min_val ≤ mem (BASE_ADDRESS + 4 * k) ∧ mem (BASE_ADDRESS + 4 * k) < max_val
    then some (BASE_ADDRESS + 4 * k) else none

/-- The float-branch "continue" pass of `MemorySearchDialog::OnDraw`: walk
`memory_cells`, keep a cell when its loaded value satisfies
`value >= min_val && value < max_val`, erase it otherwise. -/
def continueFloat (mem : Nat → ℚ) (min_val max_val : ℚ)
    (cells : List Nat) : List Nat :=
  cells.filter fun c => decide (min_val ≤ mem c ∧ mem c < max_val)

/-- A concrete processor for instantiations. -/
def procW : Processor := ⟨⟨0x100000000⟩⟩

/-- Concrete healthy allocators, the heap about to return `0x70000000`. -/
def allocW : Allocators := ⟨⟨false, 0x70000000, 0⟩, ⟨false, 7, 0⟩⟩

/-- Concrete allocators with an exhausted guest heap and a healthy host
allocator. -/
def allocHeapFailW : Allocators := ⟨⟨true, 0, 0⟩, ⟨false, 7, 0⟩⟩

theorem xe_malloc_aligned_fst_mod (h : HostState) :
    (xe_malloc_aligned h).1 % 16 = 0 := by
  unfold xe_malloc_aligned
  cases hf : h.fail <;> simp [hf, Nat.mul_mod_right]

/-- C1: for `stack_size > 0`, a successful `Create` stores the guest address
returned by the heap allocator as `stack_address` and yields
`r[1] = stack_address + stack_size` exactly; exactness holds whenever the
returned stack range fits the 32-bit guest address space, which the 32-bit
register assignment otherwise truncates. -/
theorem create_stack_pointer_exact (p : Processor) (a : Allocators)
    (ss tsa tid : Nat) (hss : 0 < ss) (hheap : a.heap.fail = false)
    (hfit : a.heap.nextAddr % 2 ^ 32 + ss < 2 ^ 32) :
    (createTS p a ss tsa tid).stack_address = a.heap.nextAddr % 2 ^ 32 ∧
    (createTS p a ss tsa tid).ppc_state.r 1 =
      (createTS p a ss tsa tid).stack_address + ss := by
  constructor
  · simp [createTS, ThreadState_create, xe_memory_heap_alloc, hheap]
  · simp only [createTS, ThreadState_create, xe_memory_heap_alloc, hheap]
    simp only [Bool.false_eq_true, if_false]
    rw [Function.update_noteq (by decide : (1 : Fin 32) ≠ 13),
      Function.update_same]
    exact Nat.mod_eq_of_lt hfit

/-- C1 witness: the spec's concrete scenario: `stack_size = 65536`,
`thread_state_address = 0x7FE00000`, heap returning `0x70000000`. -/
theorem create_stack_pointer_exact_witness :
    (createTS procW allocW 65536 0x7FE00000 1).stack_address =
      allocW.heap.nextAddr % 2 ^ 32 ∧
    (createTS procW allocW 65536 0x7FE00000 1).ppc_state.r 1 =
      (createTS procW allocW 65536 0x7FE00000 1).stack_address + 65536 :=
  create_stack_pointer_exact procW allocW 65536 0x7FE00000 1
    (by decide) rfl (by decide)

/-- C2 counterexample: with the guest heap exhausted and the host allocator
healthy, the host allocator's outstanding count after the failed Create does
not equal its count before the call — the claim's no-leak guarantee is false
on the code, which performs no failure handling at all. -/
theorem create_no_rollback_cex :
    ¬ ((createAllocs procW allocHeapFailW 65536 0x7FE00000 1).host.outstanding
        = allocHeapFailW.host.outstanding) := by
  decide

/-- C2 amended: `Create` performs no failure detection or rollback: when the
guest-stack allocation fails and the host allocation succeeds, it still
allocates the register-file block (the host outstanding count rises by one),
reports no failure, and returns a context whose `stack_address` is the
failure sentinel 0. -/
theorem create_no_rollback (p : Processor) (a : Allocators)
    (ss tsa tid : Nat) (hheap : a.heap.fail = true)
    (hhost : a.host.fail = false) :
    (createAllocs p a ss tsa tid).host.outstanding = a.host.outstanding + 1 ∧
    (createTS p a ss tsa tid).stack_address = 0 := by
  constructor
  · simp [createAllocs, ThreadState_create, xe_memory_heap_alloc,
      xe_malloc_aligned, hheap, hhost]
  · simp [createTS, ThreadState_create, xe_memory_heap_alloc, hheap]

/-- C2 amended witness at the concrete exhausted-heap allocators. -/
theorem create_no_rollback_witness :
    (createAllocs procW allocHeapFailW 65536 0x7FE00000 1).host.outstanding =
      allocHeapFailW.host.outstanding + 1 ∧
    (createTS procW allocHeapFailW 65536 0x7FE00000 1).stack_address = 0 :=
  create_no_rollback procW allocHeapFailW 65536 0x7FE00000 1 rfl rfl

/-- C3 counterexample: at a concrete input, the first allocator call `Create`
makes is not the host register-file allocation the claim puts first. -/
theorem create_order_cex :
    ¬ ((createTrace procW allocW 65536 0x7FE00000 1).head? =
        some AllocEvent.hostAlloc) := by
  decide

/-- C3 amended: `Create` allocates in the opposite order: first `stack_size`
bytes from the guest memory heap, then the register-file block from the host
aligned allocator. -/
theorem create_order (p : Processor) (a : Allocators) (ss tsa tid : Nat) :
    createTrace p a ss tsa tid =
      [AllocEvent.heapAlloc, AllocEvent.hostAlloc] := rfl

/-- C4: every constructed context's register-file block pointer is 16-byte
aligned, so the constructor's assertion `(ppc_state_ & 0xF) == 0` always
holds. -/
theorem create_ppc_state_aligned (p : Processor) (a : Allocators)
    (ss tsa tid : Nat) :
    (createTS p a ss tsa tid).ppc_state_ptr % 16 = 0 := by
  have h := xe_malloc_aligned_fst_mod a.host
  simpa [createTS, ThreadState_create] using h

/-- C5: after `Create`, `r[13]` equals `thread_state_address` verbatim (for
any 32-bit address), and the only other operation of the component, the
destructor, neither reads nor writes the register file: its result is
unchanged under any replacement of the register-file contents. -/
theorem create_thread_env_register (p : Processor) (a : Allocators)
    (ss tsa tid : Nat) (h : tsa < 2 ^ 32) :
    (createTS p a ss tsa tid).ppc_state.r 13 = tsa ∧
    ∀ (g : xe_ppc_state_t) (a2 : Allocators),
      ThreadState_destroy { createTS p a ss tsa tid with ppc_state := g } a2 =
        ThreadState_destroy (createTS p a ss tsa tid) a2 := by
  refine ⟨?_, fun g a2 => rfl⟩
  simp only [createTS, ThreadState_create]
  rw [Function.update_same]
  exact Nat.mod_eq_of_lt h

/-- C5 witness: the spec's concrete scenario yields
`r[13] = 0x7FE00000`. -/
theorem create_thread_env_register_witness :
    (createTS procW allocW 65536 0x7FE00000 1).ppc_state.r 13 = 0x7FE00000 :=
  (create_thread_env_register procW allocW 65536 0x7FE00000 1 (by decide)).1

/-- C6: `Create` zeroes the register-file block before wiring the
cross-links, so after construction every field other than `membase`, the
processor back-reference, the owning-context back-reference, `r[1]` and
`r[13]` is zero. -/
theorem create_zero_init (p : Processor) (a : Allocators) (ss tsa tid : Nat) :
    (∀ i : Fin 32, i ≠ 1 → i ≠ 13 →
      (createTS p a ss tsa tid).ppc_state.r i = 0) ∧
    (∀ i : Fin 32, (createTS p a ss tsa tid).ppc_state.f i = 0) ∧
    (∀ i : Fin 128, (createTS p a ss tsa tid).ppc_state.v i = 0) ∧
    (createTS p a ss tsa tid).ppc_state.cr = 0 ∧
    (createTS p a ss tsa tid).ppc_state.xer = 0 ∧
    (createTS p a ss tsa tid).ppc_state.lr = 0 ∧
    (createTS p a ss tsa tid).ppc_state.ctr = 0 := by
  refine ⟨fun i hi1 hi13 => ?_, fun i => rfl, fun i => rfl, rfl, rfl, rfl, rfl⟩
  simp only [createTS, ThreadState_create]
  rw [Function.update_noteq hi13, Function.update_noteq hi1]
  rfl

/-- C6 witness: in the spec's concrete scenario, `r[5]` is zero after
construction. -/
theorem create_zero_init_witness :
    (createTS procW allocW 65536 0x7FE00000 1).ppc_state.r 5 = 0 :=
  (create_zero_init procW allocW 65536 0x7FE00000 1).1 5
    (by decide) (by decide)

/-- C7: for a successfully constructed context, `Teardown` releases both
resources and releases the memory reference last, returning both allocators
exactly to the pre-`Create` baseline. -/
theorem teardown_restores_baseline (p : Processor) (a : Allocators)
    (ss tsa tid : Nat) (hheap : a.heap.fail = false)
    (hhost : a.host.fail = false) (haddr : a.heap.nextAddr % 2 ^ 32 ≠ 0) :
    (ThreadState_destroy (createTS p a ss tsa tid)
        (createAllocs p a ss tsa tid)).1.heap.outstanding =
      a.heap.outstanding ∧
    (ThreadState_destroy (createTS p a ss tsa tid)
        (createAllocs p a ss tsa tid)).1.host.outstanding =
      a.host.outstanding ∧
    (ThreadState_destroy (createTS p a ss tsa tid)
        (createAllocs p a ss tsa tid)).2.getLast? =
      some AllocEvent.memRelease := by
  refine ⟨?_, ?_, rfl⟩
  · have haddr2 : a.heap.nextAddr % 4294967296 ≠ 0 := by simpa using haddr
    simp [ThreadState_destroy, createTS, createAllocs, ThreadState_create,
      xe_memory_heap_alloc, xe_memory_heap_free, hheap, haddr2]
  · simp [ThreadState_destroy, createTS, createAllocs, ThreadState_create,
      xe_malloc_aligned, xe_free_aligned, hhost]

/-- C7 witness at the concrete healthy allocators. -/
theorem teardown_restores_baseline_witness :
    (ThreadState_destroy (createTS procW allocW 65536 0x7FE00000 1)
        (createAllocs procW allocW 65536 0x7FE00000 1)).1.heap.outstanding =
      allocW.heap.outstanding ∧
    (ThreadState_destroy (createTS procW allocW 65536 0x7FE00000 1)
        (createAllocs procW allocW 65536 0x7FE00000 1)).1.host.outstanding =
      allocW.host.outstanding ∧
    (ThreadState_destroy (createTS procW allocW 65536 0x7FE00000 1)
        (createAllocs procW allocW 65536 0x7FE00000 1)).2.getLast? =
      some AllocEvent.memRelease :=
  teardown_restores_baseline procW allocW 65536 0x7FE00000 1
    rfl rfl (by decide)

/-- C9: the destructor's release order is fixed: the aligned host free of the
register-file block, then the guest-heap free of the stack, then the memory
reference release. -/
theorem teardown_release_order (ts : ThreadState) (a : Allocators) :
    (ThreadState_destroy ts a).2 =
      [AllocEvent.hostFree, AllocEvent.heapFree, AllocEvent.memRelease] := rfl

theorem findDialog_setDialog_self (t : SearchKind) (v : Option Nat)
    (m : List (SearchKind × Option Nat)) :
    findDialog t (setDialog t v m) = some v := by
  induction m with
  | nil => simp [setDialog, findDialog]
  | cons hd rest ih =>
    obtain ⟨k, w⟩ := hd
    by_cases hk : k = t
    · simp [setDialog, findDialog, hk]
    · simp [setDialog, findDialog, hk, ih]

theorem toggle_of_present (t : SearchKind) (s : EmulatorWindowState)
    (w : Option Nat) (h : findDialog t s.memory_search_dialogs = some w) :
    findDialog t (ToggleMemorySearch t s).memory_search_dialogs = some none ∧
    (ToggleMemorySearch t s).dialogsCreated = s.dialogsCreated := by
  unfold ToggleMemorySearch
  rw [h]
  simp [findDialog_setDialog_self]

theorem toggleN_of_present (t : SearchKind) (n : Nat) :
    ∀ s : EmulatorWindowState,
    (∃ w, findDialog t s.memory_search_dialogs = some w) →
    (∃ w, findDialog t (toggleN t n s).memory_search_dialogs = some w) ∧
    (toggleN t n s).dialogsCreated = s.dialogsCreated ∧
    (1 ≤ n →
      findDialog t (toggleN t n s).memory_search_dialogs = some none) := by
  induction n with
  | zero =>
    intro s hs
    exact ⟨hs, rfl, fun h => absurd h (by decide)⟩
  | succ n ih =>
    intro s hs
    obtain ⟨w, hw⟩ := hs
    obtain ⟨hfind, hcr⟩ := toggle_of_present t s w hw
    have ih2 := ih (ToggleMemorySearch t s) ⟨none, hfind⟩
    have hiter : toggleN t (n + 1) s = toggleN t n (ToggleMemorySearch t s) :=
      rfl
    refine ⟨by rw [hiter]; exact ih2.1, by rw [hiter, ih2.2.1, hcr], ?_⟩
    intro _
    rcases Nat.eq_zero_or_pos n with h0 | h1
    · subst h0
      rw [hiter]
      simpa [toggleN] using hfind
    · rw [hiter]
      exact ih2.2.2 h1

/-- C8: `ToggleMemorySearch` inserts the key `typeid(search_t)` on its first
call and never removes it: along any run of `n >= 1` calls for the same kind
starting with the key absent, the key is present afterward, exactly one
dialog construction happened, and from the second call on every call takes
the found branch and resets the mapped pointer to null — the dialog is
created at most once and can never be reopened after being closed. -/
theorem toggle_memory_search_once (t : SearchKind) (s : EmulatorWindowState)
    (n : Nat) (habs : findDialog t s.memory_search_dialogs = none)
    (hn : 1 ≤ n) :
    (findDialog t (toggleN t n s).memory_search_dialogs).isSome = true ∧
    (toggleN t n s).dialogsCreated = s.dialogsCreated + 1 ∧
    (2 ≤ n →
      findDialog t (toggleN t n s).memory_search_dialogs = some none) := by
  obtain ⟨m, rfl⟩ : ∃ m, n = m + 1 := ⟨n - 1, by omega⟩
  have hstep : ToggleMemorySearch t s =
      { memory_search_dialogs :=
          setDialog t (some s.nextDialogId) s.memory_search_dialogs
        nextDialogId := s.nextDialogId + 1
        dialogsCreated := s.dialogsCreated + 1 } := by
    unfold ToggleMemorySearch
    rw [habs]
    simp
  have hpres : ∃ w,
      findDialog t (ToggleMemorySearch t s).memory_search_dialogs = some w :=
    ⟨some s.nextDialogId, by rw [hstep]; exact findDialog_setDialog_self ..⟩
  have ih := toggleN_of_present t m (ToggleMemorySearch t s) hpres
  have hiter : toggleN t (m + 1) s = toggleN t m (ToggleMemorySearch t s) :=
    rfl
  refine ⟨?_, ?_, ?_⟩
  · rw [hiter]
    obtain ⟨w, hw⟩ := ih.1
    simp [hw]
  · rw [hiter, ih.2.1, hstep]
  · intro h2
    rw [hiter]
    exact ih.2.2 (by omega)

/-- C8 witness: three successive toggles of the float dialog from a fresh
window create exactly one dialog and leave the key present with a null
mapped pointer. -/
theorem toggle_memory_search_once_witness :
    (findDialog SearchKind.f32
      (toggleN SearchKind.f32 3 ewEmpty).memory_search_dialogs).isSome =
      true ∧
    (toggleN SearchKind.f32 3 ewEmpty).dialogsCreated =
      ewEmpty.dialogsCreated + 1 ∧
    (2 ≤ 3 → findDialog SearchKind.f32
      (toggleN SearchKind.f32 3 ewEmpty).memory_search_dialogs = some none) :=
  toggle_memory_search_once SearchKind.f32 ewEmpty 3 rfl (by decide)

/-- C10: in the float memory-search dialog both the new-search scan and the
continue filter keep a cell exactly when its loaded value `v` satisfies
`min_val <= v < max_val`: the minimum bound is inclusive, the maximum
exclusive. -/
theorem float_search_half_open (mem : Nat → ℚ) (min_val max_val : ℚ)
    (cells : List Nat) (c : Nat) :
    (c ∈ continueFloat mem min_val max_val cells ↔
      c ∈ cells ∧ min_val ≤ mem c ∧ mem c < max_val) ∧
    (c ∈ newSearchFloat mem min_val max_val ↔
      ((∃ k, k < BYTES_PER_CHUNK * 15 / 4 ∧ c = BASE_ADDRESS + 4 * k) ∧
        min_val ≤ mem c ∧ mem c < max_val)) := by
  constructor
  · simp [continueFloat, List.mem_filter]
  · constructor
    · intro hc
      simp only [newSearchFloat, List.mem_filterMap, List.mem_range] at hc
      obtain ⟨k, hk, hsome⟩ := hc
      by_cases hP : min_val ≤ mem (BASE_ADDRESS + 4 * k) ∧
          mem (BASE_ADDRESS + 4 * k) < max_val
      · rw [if_pos hP] at hsome
        obtain rfl : BASE_ADDRESS + 4 * k = c := by injection hsome
        exact ⟨⟨k, hk, rfl⟩, hP⟩
      · rw [if_neg hP] at hsome
        cases hsome
    · rintro ⟨⟨k, hk, rfl⟩, hP⟩
      simp only [newSearchFloat, List.mem_filterMap, List.mem_range]
      exact ⟨k, hk, by rw [if_pos hP]⟩

end Xenia
